import Mathlib

/-!
Verification of the geodistance MCP server (nobelk/geodistance).

This file gives a shallow embedding of the address-based distance
calculation pipeline from geodistanceserver/handler.go and the MCP
registration from the server construction function, and proves the
specified behaviours about them.  The HTTP client is modelled as a
function from requests to either a response or a transport error, and
each handler call additionally returns the list of outbound requests it
issued, so that claims about the number of outbound calls are statable.
JSON decoding of the provider response is modelled by a JSON text parser
plus a decoder that follows the semantics of encoding/json unmarshalling
into the ResponseBody / Route structs (unknown keys ignored, missing
keys leave zero values, null assignments into slices yield nil).
-/

/-- JSON values.  Numeric literals are kept raw (as the Go decoder does
until a typed field forces a conversion). -/
inductive JValue where
  | null : JValue
  | bool : Bool → JValue
  | num : String → JValue
  | str : String → JValue
  | arr : List JValue → JValue
  | obj : List (String × JValue) → JValue

/-- Opening curly brace character. -/
def lbraceChar : Char := Char.ofNat 123

/-- Closing curly brace character. -/
def rbraceChar : Char := Char.ofNat 125

/-- Skip JSON whitespace. -/
def skipWs : List Char → List Char
  | [] => []
  | c :: cs => if c = ' ' ∨ c = '\t' ∨ c = '\n' ∨ c = '\r' then skipWs cs else c :: cs

/-- Value of one hexadecimal digit. -/
def hexDigitVal (c : Char) : Option Nat :=
  if '0' ≤ c ∧ c ≤ '9' then some (c.toNat - 48)
  else if 'a' ≤ c ∧ c ≤ 'f' then some (c.toNat - 87)
  else if 'A' ≤ c ∧ c ≤ 'F' then some (c.toNat - 55)
  else none

/-- Single-character JSON string escapes. -/
def escSimple (c : Char) : Option Char :=
  if c = '\"' then some '\"'
  else if c = '\\' then some '\\'
  else if c = '/' then some '/'
  else if c = 'b' then some (Char.ofNat 8)
  else if c = 'f' then some (Char.ofNat 12)
  else if c = 'n' then some '\n'
  else if c = 'r' then some '\r'
  else if c = 't' then some '\t'
  else none

/-- Parse the characters of a JSON string after the opening quote,
returning the decoded characters and the remainder after the closing
quote.  The fuel argument only bounds recursion depth. -/
def parseStringChars : Nat → List Char → Option (List Char × List Char)
  | 0, _ => none
  | _ + 1, [] => none
  | fuel + 1, c :: cs =>
    if c = '\"' then some ([], cs)
    else if c = '\\' then
      match cs with
      | [] => none
      | e :: cs2 =>
        if e = 'u' then
          match cs2 with
          | h1 :: h2 :: h3 :: h4 :: cs3 =>
            match hexDigitVal h1, hexDigitVal h2, hexDigitVal h3, hexDigitVal h4 with
            | some a, some b, some c4, some d =>
              match parseStringChars fuel cs3 with
              | some (rest, rem) =>
                some (Char.ofNat (((a * 16 + b) * 16 + c4) * 16 + d) :: rest, rem)
              | none => none
            | _, _, _, _ => none
          | _ => none
        else
          match escSimple e with
          | some d =>
            match parseStringChars fuel cs2 with
            | some (rest, rem) => some (d :: rest, rem)
            | none => none
          | none => none
    else if c.toNat < 32 then none
    else
      match parseStringChars fuel cs with
      | some (rest, rem) => some (c :: rest, rem)
      | none => none

/-- Take a run of decimal digits. -/
def spanDigits : List Char → List Char × List Char
  | [] => ([], [])
  | c :: cs =>
    if c.isDigit then
      let p := spanDigits cs
      (c :: p.1, p.2)
    else ([], c :: cs)

/-- Integer part of a JSON number: a single zero, or a nonzero digit
followed by digits. -/
def parseIntPart (cs : List Char) : Option (List Char × List Char) :=
  match cs with
  | c :: rest =>
    if c = '0' then some ([c], rest)
    else if c.isDigit then
      let p := spanDigits rest
      some (c :: p.1, p.2)
    else none
  | [] => none

/-- Optional fractional part of a JSON number. -/
def parseFracPart (cs : List Char) : Option (List Char × List Char) :=
  match cs with
  | c :: rest =>
    if c = '.' then
      match spanDigits rest with
      | ([], _) => none
      | (ds, r) => some (c :: ds, r)
    else some ([], cs)
  | [] => some ([], [])

/-- Optional exponent part of a JSON number. -/
def parseExpPart (cs : List Char) : Option (List Char × List Char) :=
  match cs with
  | c :: rest =>
    if c = 'e' ∨ c = 'E' then
      match rest with
      | s :: rest2 =>
        if s = '+' ∨ s = '-' then
          match spanDigits rest2 with
          | ([], _) => none
          | (ds, r) => some (c :: s :: ds, r)
        else
          match spanDigits rest with
          | ([], _) => none
          | (ds, r) => some (c :: ds, r)
      | [] => none
    else some ([], cs)
  | [] => some ([], [])

/-- Parse a JSON number, returning its raw literal text. -/
def parseNumber (cs : List Char) : Option (String × List Char) :=
  let sp : List Char × List Char :=
    match cs with
    | c :: r => if c = '-' then ([c], r) else ([], cs)
    | [] => ([], [])
  match parseIntPart sp.2 with
  | none => none
  | some (ip, cs2) =>
    match parseFracPart cs2 with
    | none => none
    | some (fp, cs3) =>
      match parseExpPart cs3 with
      | none => none
      | some (ep, cs4) => some (String.mk (sp.1 ++ ip ++ fp ++ ep), cs4)

/-- Match an exact character sequence. -/
def stripLit : List Char → List Char → Option (List Char)
  | [], rest => some rest
  | a :: ps, c :: rest => if a = c then stripLit ps rest else none
  | _ :: _, [] => none

mutual

/-- Parse one JSON value.  Fuel bounds the recursion depth. -/
def parseValue : Nat → List Char → Option (JValue × List Char)
  | 0, _ => none
  | fuel + 1, cs =>
    match skipWs cs with
    | [] => none
    | c :: rest =>
      if c = 'n' then
        match stripLit ['u', 'l', 'l'] rest with
        | some r => some (JValue.null, r)
        | none => none
      else if c = 't' then
        match stripLit ['r', 'u', 'e'] rest with
        | some r => some (JValue.bool true, r)
        | none => none
      else if c = 'f' then
        match stripLit ['a', 'l', 's', 'e'] rest with
        | some r => some (JValue.bool false, r)
        | none => none
      else if c = '\"' then
        match parseStringChars (rest.length + 1) rest with
        | some (chars, r) => some (JValue.str (String.mk chars), r)
        | none => none
      else if c = '[' then
        match skipWs rest with
        | ']' :: r => some (JValue.arr [], r)
        | cs2 =>
          match parseValue fuel cs2 with
          | some (v, r) => parseArrayTail fuel r [v]
          | none => none
      else if c = lbraceChar then
        match skipWs rest with
        | [] => none
        | d :: r =>
          if d = rbraceChar then some (JValue.obj [], r)
          else
            match parseMember fuel (d :: r) with
            | some (kv, r2) => parseObjectTail fuel r2 [kv]
            | none => none
      else if c = '-' ∨ c.isDigit then
        match parseNumber (c :: rest) with
        | some (lit, r) => some (JValue.num lit, r)
        | none => none
      else none

/-- Parse the rest of a JSON array after the first element. -/
def parseArrayTail : Nat → List Char → List JValue → Option (JValue × List Char)
  | 0, _, _ => none
  | fuel + 1, cs, acc =>
    match skipWs cs with
    | ']' :: r => some (JValue.arr acc.reverse, r)
    | ',' :: r =>
      match parseValue fuel r with
      | some (v, r2) => parseArrayTail fuel r2 (v :: acc)
      | none => none
    | _ => none

/-- Parse one object member: a quoted key, a colon, and a value. -/
def parseMember : Nat → List Char → Option ((String × JValue) × List Char)
  | 0, _ => none
  | fuel + 1, cs =>
    match skipWs cs with
    | c :: rest =>
      if c = '\"' then
        match parseStringChars (rest.length + 1) rest with
        | some (kchars, r) =>
          match skipWs r with
          | ':' :: r2 =>
            match parseValue fuel r2 with
            | some (v, r3) => some ((String.mk kchars, v), r3)
            | none => none
          | _ => none
        | none => none
      else none
    | [] => none

/-- Parse the rest of a JSON object after the first member. -/
def parseObjectTail : Nat → List Char → List (String × JValue) →
    Option (JValue × List Char)
  | 0, _, _ => none
  | fuel + 1, cs, acc =>
    match skipWs cs with
    | c :: r =>
      if c = rbraceChar then some (JValue.obj acc.reverse, r)
      else if c = ',' then
        match parseMember fuel r with
        | some (kv, r2) => parseObjectTail fuel r2 (kv :: acc)
        | none => none
      else none
    | [] => none

end

/-- Parse a whole JSON document: one value followed only by whitespace,
as json.Unmarshal requires. -/
def JValue.parse (s : String) : Option JValue :=
  match parseValue (s.length * 4 + 8) s.toList with
  | some (v, rest) =>
    match skipWs rest with
    | [] => some v
    | _ :: _ => none
  | none => none

/-- An origin of the provider request (handler.go, type Origin). -/
structure Origin where
  address : String
deriving DecidableEq

/-- A destination of the provider request (handler.go, type Destination). -/
structure Destination where
  address : String
deriving DecidableEq

/-- The provider request body (handler.go, type RequestBody). -/
structure RequestBody where
  origins : List Origin
  destinations : List Destination
  travelMode : String
  routingPreference : String
  requestedReferenceRoutes : List String
  languageCode : String
deriving DecidableEq

/-- One route of the provider response (handler.go, type Route). -/
structure Route where
  distanceMeters : Int
  duration : String
  routeLabels : List String
deriving DecidableEq

/-- The provider response body (handler.go, type ResponseBody). -/
structure ResponseBody where
  routes : List Route
deriving DecidableEq

/-- An outbound HTTP request as the handler constructs it: method, URL,
the headers set on it in order, and the serialized body. -/
structure HttpRequest where
  method : String
  url : String
  headers : List (String × String)
  body : String
deriving DecidableEq

/-- An HTTP response as the handler consumes it. -/
structure HttpResponse where
  statusCode : Nat
  body : String
deriving DecidableEq

/-- A text content block of an MCP tool result (mcp.TextContent). -/
structure TextContent where
  type : String
  text : String
deriving DecidableEq

/-- An MCP tool result (mcp.CallToolResult); only text content is used. -/
structure CallToolResult where
  content : List TextContent
deriving DecidableEq

/-- The handler state (handler.go, type GeodistanceHandler): the API key
loaded at construction time and the HTTP client.  The client is a
function from a request to a response or a transport error, standing for
HTTPClient.Do. -/
structure GeodistanceHandler where
  apiKey : String
  client : HttpRequest → Except String HttpResponse

/-- Digits of a decimal literal to a natural number. -/
def natFromDigits (ds : List Char) : Nat :=
  ds.foldl (fun a c => a * 10 + (c.toNat - 48)) 0

/-- Convert a raw JSON numeric literal to an integer, as encoding/json
does when decoding a number into a Go int: only pure integer literals
are accepted. -/
def intFromLiteral (s : String) : Option Int :=
  match s.toList with
  | '-' :: ds =>
    if ds ≠ [] ∧ ds.all Char.isDigit then some (-(natFromDigits ds : Int)) else none
  | ds =>
    if ds ≠ [] ∧ ds.all Char.isDigit then some ((natFromDigits ds : Int)) else none

/-- Apply one JSON object member to a Route being decoded, following
encoding/json: unknown keys are ignored, null into an int or string
field is a no-op, null into a slice field sets it to nil. -/
def decodeRouteField (r : Route) (k : String) (v : JValue) : Except String Route :=
  if k = "distanceMeters" then
    match v with
    | JValue.null => Except.ok r
    | JValue.num lit =>
      match intFromLiteral lit with
      | some n => Except.ok { r with distanceMeters := n }
      | none => Except.error ("cannot unmarshal number " ++ lit ++ " into distanceMeters")
    | _ => Except.error "cannot unmarshal value into distanceMeters"
  else if k = "duration" then
    match v with
    | JValue.null => Except.ok r
    | JValue.str s => Except.ok { r with duration := s }
    | _ => Except.error "cannot unmarshal value into duration"
  else if k = "routeLabels" then
    match v with
    | JValue.null => Except.ok { r with routeLabels := [] }
    | JValue.arr xs =>
      match xs.mapM (fun x => match x with | JValue.str s => some s | _ => none) with
      | some ls => Except.ok { r with routeLabels := ls }
      | none => Except.error "cannot unmarshal element into routeLabels"
    | _ => Except.error "cannot unmarshal value into routeLabels"
  else Except.ok r

/-- Decode one JSON value into a Route. -/
def decodeRoute (v : JValue) : Except String Route :=
  match v with
  | JValue.null => Except.ok { distanceMeters := 0, duration := "", routeLabels := [] }
  | JValue.obj kvs =>
    kvs.foldlM (fun r kv => decodeRouteField r kv.1 kv.2)
      { distanceMeters := 0, duration := "", routeLabels := [] }
  | _ => Except.error "cannot unmarshal value into Route"

/-- Apply one JSON object member to a ResponseBody being decoded. -/
def decodeResponseBodyField (rb : ResponseBody) (k : String) (v : JValue) :
    Except String ResponseBody :=
  if k = "routes" then
    match v with
    | JValue.null => Except.ok { routes := [] }
    | JValue.arr xs =>
      match xs.mapM decodeRoute with
      | Except.ok rs => Except.ok { routes := rs }
      | Except.error e => Except.error e
    | _ => Except.error "cannot unmarshal value into routes"
  else Except.ok rb

/-- Decode one JSON value into a ResponseBody. -/
def decodeResponseBody (v : JValue) : Except String ResponseBody :=
  match v with
  | JValue.null => Except.ok { routes := [] }
  | JValue.obj kvs =>
    kvs.foldlM (fun rb kv => decodeResponseBodyField rb kv.1 kv.2) { routes := [] }
  | _ => Except.error "cannot unmarshal value into ResponseBody"

/-- json.Unmarshal of a response body into ResponseBody: parse the text,
then decode the value. -/
def unmarshalResponseBody (s : String) : Except String ResponseBody :=
  match JValue.parse s with
  | none => Except.error "invalid JSON"
  | some v => decodeResponseBody v

/-- Lowercase hexadecimal digit. -/
def hexLow (n : Nat) : Char :=
  if n < 10 then Char.ofNat (48 + n) else Char.ofNat (87 + n)

/-- Escape one character as encoding/json does inside a string: quote,
backslash, the HTML-escaped characters, and control characters. -/
def escapeJsonChar (c : Char) : String :=
  if c = '\"' then "\\\""
  else if c = '\\' then "\\\\"
  else if c = '\n' then "\\n"
  else if c = '\r' then "\\r"
  else if c = '\t' then "\\t"
  else if c = '<' then "\\u003c"
  else if c = '>' then "\\u003e"
  else if c = '&' then "\\u0026"
  else if c.toNat < 32 then
    String.mk ['\\', 'u', '0', '0', hexLow (c.toNat / 16), hexLow (c.toNat % 16)]
  else String.singleton c

/-- Serialize a string as a JSON string literal. -/
def quoteJson (s : String) : String :=
  "\"" ++ String.join (s.toList.map escapeJsonChar) ++ "\""

/-- Serialize a list as a JSON array. -/
def marshalJsonList {α : Type} (f : α → String) (xs : List α) : String :=
  "[" ++ String.intercalate "," (xs.map f) ++ "]"

/-- Serialize an Origin as json.Marshal does. -/
def marshalOrigin (o : Origin) : String :=
  "\x7b\"address\":" ++ quoteJson o.address ++ "\x7d"

/-- Serialize a Destination as json.Marshal does. -/
def marshalDestination (d : Destination) : String :=
  "\x7b\"address\":" ++ quoteJson d.address ++ "\x7d"

/-- Serialize a RequestBody as json.Marshal does: fields in struct
declaration order, no added whitespace. -/
def marshalRequestBody (b : RequestBody) : String :=
  "\x7b\"origins\":" ++ marshalJsonList marshalOrigin b.origins ++
  ",\"destinations\":" ++ marshalJsonList marshalDestination b.destinations ++
  ",\"travelMode\":" ++ quoteJson b.travelMode ++
  ",\"routingPreference\":" ++ quoteJson b.routingPreference ++
  ",\"requestedReferenceRoutes\":" ++ marshalJsonList quoteJson b.requestedReferenceRoutes ++
  ",\"languageCode\":" ++ quoteJson b.languageCode ++ "\x7d"

/-- request.RequireString of mcp-go: the argument must be present and be
a string. -/
def requireString (args : List (String × JValue)) (key : String) :
    Except String String :=
  match args.lookup key with
  | some (JValue.str s) => Except.ok s
  | some _ => Except.error ("argument " ++ key ++ " is not of type string")
  | none => Except.error ("required argument " ++ key ++ " not found")

/-- validateAddresses (handler.go): both addresses must be nonempty. -/
def validateAddresses (origin destination : String) : Except String Unit :=
  if origin = "" then Except.error "origin address cannot be empty"
  else if destination = "" then Except.error "destination address cannot be empty"
  else Except.ok ()

/-- buildRequestBody (handler.go): the provider payload with its fixed
travel parameters. -/
def buildRequestBody (origins : List Origin) (destinations : List Destination) :
    RequestBody :=
  { origins := origins
    destinations := destinations
    travelMode := "DRIVE"
    routingPreference := "TRAFFIC_AWARE"
    requestedReferenceRoutes := ["SHORTER_DISTANCE"]
    languageCode := "en-US" }

/-- createRequest (handler.go): the outbound POST with its three
headers.  Marshalling of this payload and request construction for the
constant URL cannot fail, so the function is total. -/
def createRequest (gh : GeodistanceHandler) (body : RequestBody) : HttpRequest :=
  { method := "POST"
    url := "https://routes.googleapis.com/distanceMatrix/v2:computeRouteMatrix"
    headers := [("Content-Type", "application/json"),
                ("X-Goog-Api-Key", gh.apiKey),
                ("X-Goog-FieldMask", "routes.duration,routes.routeLabels,routes.distanceMeters")]
    body := marshalRequestBody body }

/-- processResponse (handler.go): non-200 statuses fail with the status
code and raw body in the message; then the body is unmarshalled; then an
empty routes list fails. -/
def processResponse (resp : HttpResponse) : Except String ResponseBody :=
  if resp.statusCode ≠ 200 then
    Except.error ("API request failed with status " ++ toString resp.statusCode ++
      ": " ++ resp.body)
  else
    match unmarshalResponseBody resp.body with
    | Except.error e => Except.error ("failed to unmarshal response: " ++ e)
    | Except.ok responseBody =>
      if responseBody.routes.length = 0 then Except.error "no routes found in response"
      else Except.ok responseBody

/-- formatResponse (handler.go): the first route formatted as a single
text content block. -/
def formatResponse (responseBody : ResponseBody) : Except String CallToolResult :=
  match responseBody.routes with
  | [] => Except.error "no routes available"
  | route :: _ =>
    Except.ok ⟨[⟨"text", "Route distance: " ++ toString route.distanceMeters ++
      " meters, Duration: " ++ route.duration⟩]⟩

/-- callDistanceMatrix (handler.go): build the body, create the request,
issue it once through the client, and process the response.  The second
component collects the outbound requests issued. -/
def callDistanceMatrix (gh : GeodistanceHandler) (origins : List Origin)
    (destinations : List Destination) :
    Except String ResponseBody × List HttpRequest :=
  let body := buildRequestBody origins destinations
  let req := createRequest gh body
  match gh.client req with
  | Except.error e => (Except.error ("failed to execute request: " ++ e), [req])
  | Except.ok resp => (processResponse resp, [req])

/-- handleDistanceCalculation (handler.go): extract both addresses,
validate them, call the distance matrix, and format the first route.
The second component collects the outbound requests issued. -/
def handleDistanceCalculation (gh : GeodistanceHandler)
    (args : List (String × JValue)) :
    Except String CallToolResult × List HttpRequest :=
  match requireString args "originAddress" with
  | Except.error e => (Except.error ("missing origin address: " ++ e), [])
  | Except.ok originAddress =>
    match requireString args "destinationAddress" with
    | Except.error e => (Except.error ("missing destination address: " ++ e), [])
    | Except.ok destinationAddress =>
      match validateAddresses originAddress destinationAddress with
      | Except.error e => (Except.error e, [])
      | Except.ok _ =>
        match callDistanceMatrix gh [{ address := originAddress }]
            [{ address := destinationAddress }] with
        | (Except.error e, trace) => (Except.error e, trace)
        | (Except.ok responseBody, trace) => (formatResponse responseBody, trace)

/-- os.Getenv: the empty string when the variable is absent. -/
def osGetenv (env : String → Option String) (key : String) : String :=
  (env key).getD ""

/-- NewGeodistanceHandlerWithClient (handler.go): load the API key from
the environment once; fail when it is unset. -/
def NewGeodistanceHandlerWithClient (client : HttpRequest → Except String HttpResponse)
    (env : String → Option String) : Except String GeodistanceHandler :=
  let googleApiKey := osGetenv env "GOOGLE_API_KEY"
  if googleApiKey = "" then
    Except.error "GOOGLE_API_KEY environment variable not set"
  else
    Except.ok { apiKey := googleApiKey, client := client }

/-- NewGeodistanceHandler (handler.go): construction with the default
HTTP client, here passed in as a parameter standing for the real
network client with its 30 second timeout. -/
def NewGeodistanceHandler (defaultClient : HttpRequest → Except String HttpResponse)
    (env : String → Option String) : Except String GeodistanceHandler :=
  NewGeodistanceHandlerWithClient defaultClient env

/-- Package-level version string (server.go). -/
def Version : String := "dev"

/-- One declared tool argument (mcp.WithString with mcp.Required). -/
structure ToolArg where
  name : String
  argType : String
  description : String
  required : Bool
deriving DecidableEq

/-- A declared MCP tool (mcp.NewTool). -/
structure Tool where
  name : String
  description : String
  args : List ToolArg
deriving DecidableEq

/-- A tool together with its attached handler (server.AddTool). -/
structure RegisteredTool where
  tool : Tool
  handler : List (String × JValue) → Except String CallToolResult × List HttpRequest

/-- The MCP server with its registered tools. -/
structure MCPServer where
  name : String
  version : String
  tools : List RegisteredTool

/-- GeodistanceServer (server.go): construct the handler, then the MCP
server, and register the calculate_distance tool with its two required
string arguments and the distance-calculation handler. -/
def GeodistanceServer (defaultClient : HttpRequest → Except String HttpResponse)
    (env : String → Option String) : Except String MCPServer :=
  match NewGeodistanceHandler defaultClient env with
  | Except.error e => Except.error e
  | Except.ok h =>
    Except.ok
      { name := "mcp-geodistance-server"
        version := Version
        tools := [{
          tool := {
            name := "calculate_distance"
            description := "Calculate distance between origin and destination addresses."
            args := [
              ⟨"originAddress", "string", "Address of origin", true⟩,
              ⟨"destinationAddress", "string", "Address of destination", true⟩] }
          handler := handleDistanceCalculation h }] }

/-- A provider response body with two reference routes, as in the
repository's tests and the sample exchange of the README. -/
def sampleRouteBody : String :=
  "\x7b\"routes\":[\x7b\"distanceMeters\":1000,\"duration\":\"5m\",\"routeLabels\":[\"DEFAULT_ROUTE\"]\x7d,\x7b\"distanceMeters\":900,\"duration\":\"7m\",\"routeLabels\":[\"SHORTER_DISTANCE\"]\x7d]\x7d"

/-- A client whose transport always fails, for calls that must not reach
the network. -/
def noNetworkClient : HttpRequest → Except String HttpResponse :=
  fun _ => Except.error "network unavailable"

/-- An environment holding the test API key. -/
def envWithTestKey : String → Option String :=
  fun key => if key = "GOOGLE_API_KEY" then some "test-api-key" else none

/-- An environment with no variables set. -/
def envWithoutKey : String → Option String :=
  fun _ => none

/-- C5: a non-200 response makes processResponse fail with a message
carrying the numeric status code and the raw body verbatim, for every
body, parseable or not, so no decoding of the body is involved. -/
theorem processResponse_non200_error (resp : HttpResponse)
    (h : resp.statusCode ≠ 200) :
    processResponse resp =
      Except.error ("API request failed with status " ++ toString resp.statusCode ++
        ": " ++ resp.body) := by
  unfold processResponse
  simp [h]

/-- C5 witness at status 403 with body "forbidden". -/
theorem processResponse_non200_error_witness :
    processResponse ⟨403, "forbidden"⟩ =
      Except.error "API request failed with status 403: forbidden" :=
  Eq.trans (processResponse_non200_error ⟨403, "forbidden"⟩ (by decide)) rfl

/-- C4: a 200 response whose body decodes to an empty routes list makes
processResponse fail with the empty-result error; no success with a
default distance is possible. -/
theorem processResponse_empty_routes_error (resp : HttpResponse)
    (hs : resp.statusCode = 200)
    (hb : unmarshalResponseBody resp.body = Except.ok ⟨[]⟩) :
    processResponse resp = Except.error "no routes found in response" := by
  unfold processResponse
  simp [hs, hb]

/-- C4 witness on the body of the repository's own test case. -/
theorem processResponse_empty_routes_error_witness :
    processResponse ⟨200, "\x7b\"routes\": []\x7d"⟩ =
      Except.error "no routes found in response" :=
  processResponse_empty_routes_error ⟨200, "\x7b\"routes\": []\x7d"⟩ rfl rfl

/-- C8: a 200 response whose body fails to unmarshal makes
processResponse return the decode error as an ordinary failure value. -/
theorem processResponse_unmarshal_error (resp : HttpResponse) (e : String)
    (hs : resp.statusCode = 200)
    (hb : unmarshalResponseBody resp.body = Except.error e) :
    processResponse resp =
      Except.error ("failed to unmarshal response: " ++ e) := by
  unfold processResponse
  simp [hs, hb]

/-- C8 witness on the body of the repository's own test case. -/
theorem processResponse_unmarshal_error_witness :
    processResponse ⟨200, "invalid json"⟩ =
      Except.error "failed to unmarshal response: invalid JSON" :=
  Eq.trans (processResponse_unmarshal_error ⟨200, "invalid json"⟩ "invalid JSON" rfl rfl) rfl

/-- C7: buildRequestBody is a total function that always produces the
payload holding exactly the given origins and destinations with the four
fixed travel parameters, and identical inputs give identical serialized
payload content. -/
theorem buildRequestBody_constants_deterministic
    (origins : List Origin) (destinations : List Destination) :
    buildRequestBody origins destinations =
        { origins := origins
          destinations := destinations
          travelMode := "DRIVE"
          routingPreference := "TRAFFIC_AWARE"
          requestedReferenceRoutes := ["SHORTER_DISTANCE"]
          languageCode := "en-US" } ∧
      marshalRequestBody (buildRequestBody origins destinations) =
        marshalRequestBody (buildRequestBody origins destinations) :=
  ⟨rfl, rfl⟩

/-- Folding the members of a JSON object whose every routes binding is
null over the ResponseBody decoder keeps the empty zero value. -/
theorem decodeResponseBodyAux_null_routes (kvs : List (String × JValue))
    (h : ∀ v, ("routes", v) ∈ kvs → v = JValue.null) :
    kvs.foldlM (fun rb kv => decodeResponseBodyField rb kv.1 kv.2)
      ({ routes := [] } : ResponseBody) = Except.ok { routes := [] } := by
  induction kvs with
  | nil => rfl
  | cons kv rest ih =>
    obtain ⟨k, v⟩ := kv
    rw [List.foldlM_cons]
    have hstep : decodeResponseBodyField ⟨[]⟩ k v = Except.ok ⟨[]⟩ := by
      by_cases hk : k = "routes"
      · have hv : v = JValue.null := h v (by simp [hk])
        subst hk hv
        rfl
      · simp [decodeResponseBodyField, hk]
    rw [hstep]
    have hrest : ∀ v, ("routes", v) ∈ rest → v = JValue.null :=
      fun v hv => h v (List.mem_cons_of_mem _ hv)
    simpa using ih hrest

/-- C10: a 200 response whose body is valid JSON but an object with no
routes key, or whose routes bindings are null, decodes successfully to
an empty routes list, so processResponse classifies it as the
empty-result failure, not a decode failure. -/
theorem processResponse_missing_routes_key (resp : HttpResponse)
    (kvs : List (String × JValue))
    (hs : resp.statusCode = 200)
    (hp : JValue.parse resp.body = some (JValue.obj kvs))
    (hr : ∀ v, ("routes", v) ∈ kvs → v = JValue.null) :
    processResponse resp = Except.error "no routes found in response" := by
  have hd : unmarshalResponseBody resp.body = Except.ok ⟨[]⟩ := by
    unfold unmarshalResponseBody
    rw [hp]
    unfold decodeResponseBody
    exact decodeResponseBodyAux_null_routes kvs hr
  unfold processResponse
  simp [hs, hd]

/-- C10 witness on a valid JSON object carrying no routes key. -/
theorem processResponse_missing_routes_key_witness :
    processResponse ⟨200, "\x7b\"status\": \"OK\"\x7d"⟩ =
      Except.error "no routes found in response" :=
  processResponse_missing_routes_key ⟨200, "\x7b\"status\": \"OK\"\x7d"⟩
    [("status", JValue.str "OK")] rfl rfl
    (by
      intro v hv
      have h := List.mem_singleton.mp hv
      have hks : "routes" = "status" := congrArg Prod.fst h
      exact absurd hks (by decide))

/-- C1: when both addresses extract as nonempty strings and the client
answers 200 with a body decoding to at least one route, the handler
succeeds with exactly one text content block formatted from the first
route only, whatever further routes the response carries. -/
theorem handleDistanceCalculation_success_first_route
    (k origin dest : String) (args : List (String × JValue))
    (resp : HttpResponse) (r : Route) (rs : List Route)
    (h1 : requireString args "originAddress" = Except.ok origin)
    (h2 : requireString args "destinationAddress" = Except.ok dest)
    (ho : origin ≠ "") (hd : dest ≠ "")
    (hs : resp.statusCode = 200)
    (hb : unmarshalResponseBody resp.body = Except.ok ⟨r :: rs⟩) :
    (handleDistanceCalculation ⟨k, fun _ => Except.ok resp⟩ args).1 =
      Except.ok ⟨[⟨"text", "Route distance: " ++ toString r.distanceMeters ++
        " meters, Duration: " ++ r.duration⟩]⟩ := by
  unfold handleDistanceCalculation callDistanceMatrix
  rw [h1, h2]
  simp [validateAddresses, ho, hd, processResponse, hs, hb, formatResponse]

set_option maxRecDepth 8192 in
/-- C1 witness: the scenario of the repository's handler test, with a
second reference route added to show only the first is surfaced. -/
theorem handleDistanceCalculation_success_first_route_witness :
    (handleDistanceCalculation
        ⟨"test-api-key", fun _ => Except.ok ⟨200, sampleRouteBody⟩⟩
        [("originAddress", JValue.str "New York"),
         ("destinationAddress", JValue.str "Los Angeles")]).1 =
      Except.ok ⟨[⟨"text", "Route distance: 1000 meters, Duration: 5m"⟩]⟩ :=
  Eq.trans
    (handleDistanceCalculation_success_first_route "test-api-key" "New York"
      "Los Angeles"
      [("originAddress", JValue.str "New York"),
       ("destinationAddress", JValue.str "Los Angeles")]
      ⟨200, sampleRouteBody⟩ ⟨1000, "5m", ["DEFAULT_ROUTE"]⟩
      [⟨900, "7m", ["SHORTER_DISTANCE"]⟩]
      rfl rfl (by decide) (by decide) rfl (by rfl))
    rfl

/-- C2: when the originAddress or destinationAddress argument is absent
from the argument mapping or present as the empty string, the handler
fails and issues no outbound HTTP request at all. -/
theorem handleDistanceCalculation_rejects_missing_or_empty
    (gh : GeodistanceHandler) (args : List (String × JValue))
    (h : args.lookup "originAddress" = none ∨
         args.lookup "originAddress" = some (JValue.str "") ∨
         args.lookup "destinationAddress" = none ∨
         args.lookup "destinationAddress" = some (JValue.str "")) :
    (∃ e, (handleDistanceCalculation gh args).1 = Except.error e) ∧
      (handleDistanceCalculation gh args).2 = [] := by
  unfold handleDistanceCalculation
  rcases h with h | h | h | h
  · simp [requireString, h]
  · cases h2 : requireString args "destinationAddress" with
    | error e => simp [requireString, h, h2]
    | ok d => simp [requireString, h, h2, validateAddresses]
  · cases h1 : requireString args "originAddress" with
    | error e => simp [h1]
    | ok o => simp [h1, requireString, h]
  · cases h1 : requireString args "originAddress" with
    | error e => simp [h1]
    | ok o =>
      by_cases ho : o = ""
      · simp [h1, requireString, h, validateAddresses, ho]
      · simp [h1, requireString, h, validateAddresses, ho]

/-- C2 witness: originAddress absent from the argument mapping. -/
theorem handleDistanceCalculation_rejects_missing_or_empty_witness :
    (∃ e, (handleDistanceCalculation ⟨"test-api-key", noNetworkClient⟩
        [("destinationAddress", JValue.str "Los Angeles")]).1 = Except.error e) ∧
      (handleDistanceCalculation ⟨"test-api-key", noNetworkClient⟩
        [("destinationAddress", JValue.str "Los Angeles")]).2 = [] :=
  handleDistanceCalculation_rejects_missing_or_empty
    ⟨"test-api-key", noNetworkClient⟩
    [("destinationAddress", JValue.str "Los Angeles")] (Or.inl rfl)

/-- C6: whenever extraction and validation pass, exactly one outbound
request is issued, whatever the client then answers, and it is a POST to
the provider URL carrying exactly the three configured headers. -/
theorem handleDistanceCalculation_single_post_headers
    (gh : GeodistanceHandler) (args : List (String × JValue)) (origin dest : String)
    (h1 : requireString args "originAddress" = Except.ok origin)
    (h2 : requireString args "destinationAddress" = Except.ok dest)
    (ho : origin ≠ "") (hd : dest ≠ "") :
    (handleDistanceCalculation gh args).2 =
      [⟨"POST", "https://routes.googleapis.com/distanceMatrix/v2:computeRouteMatrix",
        [("Content-Type", "application/json"),
         ("X-Goog-Api-Key", gh.apiKey),
         ("X-Goog-FieldMask", "routes.duration,routes.routeLabels,routes.distanceMeters")],
        marshalRequestBody (buildRequestBody [⟨origin⟩] [⟨dest⟩])⟩] := by
  unfold handleDistanceCalculation callDistanceMatrix
  rw [h1, h2]
  simp only [validateAddresses, if_neg ho, if_neg hd]
  cases hc : gh.client (createRequest gh (buildRequestBody [⟨origin⟩] [⟨dest⟩])) with
  | error e => simp [createRequest, hc]
  | ok resp => cases hpr : processResponse resp <;> simp [createRequest, hc, hpr]

/-- C6 witness: one concrete call through a failing transport still
issues exactly the single configured POST. -/
theorem handleDistanceCalculation_single_post_headers_witness :
    (handleDistanceCalculation ⟨"test-api-key", noNetworkClient⟩
        [("originAddress", JValue.str "New York"),
         ("destinationAddress", JValue.str "Los Angeles")]).2 =
      [⟨"POST", "https://routes.googleapis.com/distanceMatrix/v2:computeRouteMatrix",
        [("Content-Type", "application/json"),
         ("X-Goog-Api-Key", "test-api-key"),
         ("X-Goog-FieldMask", "routes.duration,routes.routeLabels,routes.distanceMeters")],
        "\x7b\"origins\":[\x7b\"address\":\"New York\"\x7d],\"destinations\":[\x7b\"address\":\"Los Angeles\"\x7d],\"travelMode\":\"DRIVE\",\"routingPreference\":\"TRAFFIC_AWARE\",\"requestedReferenceRoutes\":[\"SHORTER_DISTANCE\"],\"languageCode\":\"en-US\"\x7d"⟩] :=
  Eq.trans
    (handleDistanceCalculation_single_post_headers
      ⟨"test-api-key", noNetworkClient⟩
      [("originAddress", JValue.str "New York"),
       ("destinationAddress", JValue.str "Los Angeles")]
      "New York" "Los Angeles" rfl rfl (by decide) (by decide))
    rfl

/-- C3: server construction under a set API key registers exactly the
calculate_distance tool, with originAddress and destinationAddress as
its required string arguments and the distance-calculation handler
attached. -/
theorem geodistanceServer_registers_calculate_distance
    (defaultClient : HttpRequest → Except String HttpResponse)
    (env : String → Option String) (k : String)
    (hk : env "GOOGLE_API_KEY" = some k) (hne : k ≠ "") :
    GeodistanceServer defaultClient env =
      Except.ok
        { name := "mcp-geodistance-server"
          version := Version
          tools := [{
            tool := {
              name := "calculate_distance"
              description := "Calculate distance between origin and destination addresses."
              args := [
                ⟨"originAddress", "string", "Address of origin", true⟩,
                ⟨"destinationAddress", "string", "Address of destination", true⟩] }
            handler := handleDistanceCalculation ⟨k, defaultClient⟩ }] } := by
  unfold GeodistanceServer NewGeodistanceHandler NewGeodistanceHandlerWithClient osGetenv
  rw [hk]
  simp [hne]

/-- C3 witness at a concrete environment and client. -/
theorem geodistanceServer_registers_calculate_distance_witness :
    GeodistanceServer noNetworkClient envWithTestKey =
      Except.ok
        { name := "mcp-geodistance-server"
          version := Version
          tools := [{
            tool := {
              name := "calculate_distance"
              description := "Calculate distance between origin and destination addresses."
              args := [
                ⟨"originAddress", "string", "Address of origin", true⟩,
                ⟨"destinationAddress", "string", "Address of destination", true⟩] }
            handler := handleDistanceCalculation ⟨"test-api-key", noNetworkClient⟩ }] } :=
  geodistanceServer_registers_calculate_distance noNetworkClient envWithTestKey
    "test-api-key" rfl (by decide)

/-- C9: an absent or empty GOOGLE_API_KEY fails handler construction
with the exact message naming the unset variable and server construction
propagates that failure, while a set key makes construction succeed with
the key stored in the handler, and every request the stored handler
creates carries that same key, so a missing key can never become a
per-call failure. -/
theorem apiKey_construction_time
    (defaultClient : HttpRequest → Except String HttpResponse)
    (env : String → Option String) :
    ((env "GOOGLE_API_KEY" = none ∨ env "GOOGLE_API_KEY" = some "") →
      NewGeodistanceHandlerWithClient defaultClient env =
          Except.error "GOOGLE_API_KEY environment variable not set" ∧
        GeodistanceServer defaultClient env =
          Except.error "GOOGLE_API_KEY environment variable not set") ∧
      (∀ k, env "GOOGLE_API_KEY" = some k → k ≠ "" →
        NewGeodistanceHandlerWithClient defaultClient env =
            Except.ok ⟨k, defaultClient⟩ ∧
          ∀ body, (createRequest ⟨k, defaultClient⟩ body).headers =
            [("Content-Type", "application/json"),
             ("X-Goog-Api-Key", k),
             ("X-Goog-FieldMask", "routes.duration,routes.routeLabels,routes.distanceMeters")]) := by
  constructor
  · intro h
    have hkey : osGetenv env "GOOGLE_API_KEY" = "" := by
      rcases h with h | h <;> simp [osGetenv, h]
    constructor
    · unfold NewGeodistanceHandlerWithClient
      simp [hkey]
    · unfold GeodistanceServer NewGeodistanceHandler NewGeodistanceHandlerWithClient
      simp [hkey]
  · intro k hk hne
    have hkey : osGetenv env "GOOGLE_API_KEY" = k := by simp [osGetenv, hk]
    constructor
    · unfold NewGeodistanceHandlerWithClient
      simp [hkey, hne]
    · intro body
      rfl

/-- C9 witness: construction fails without the key and succeeds with it. -/
theorem apiKey_construction_time_witness :
    NewGeodistanceHandlerWithClient noNetworkClient envWithoutKey =
        Except.error "GOOGLE_API_KEY environment variable not set" ∧
      GeodistanceServer noNetworkClient envWithoutKey =
        Except.error "GOOGLE_API_KEY environment variable not set" ∧
      NewGeodistanceHandlerWithClient noNetworkClient envWithTestKey =
        Except.ok ⟨"test-api-key", noNetworkClient⟩ :=
  ⟨((apiKey_construction_time noNetworkClient envWithoutKey).1 (Or.inl rfl)).1,
   ((apiKey_construction_time noNetworkClient envWithoutKey).1 (Or.inl rfl)).2,
   ((apiKey_construction_time noNetworkClient envWithTestKey).2 "test-api-key"
      rfl (by decide)).1⟩
